import Mathlib

/-!
Shallow embedding of the hermes-bot monitoring engine (src/app.py and
src/bot_logic.py) and proofs about it.

Conventions of the embedding:
* Python `int` becomes `Int`; timestamps are modelled as integer seconds.
* Python floats produced by `random.uniform` are modelled as a rational
  parameter constrained to the sampling interval.
* `datetime.datetime.fromisoformat` is standard-library code, so it is a
  parameter `parse : String → Option Int` (`none` models `ValueError`).
* Python dicts that the code only iterates or filters are association lists.
* Code that can raise returns `Option`/`Except`; a caught exception is the
  `none`/`.error` branch at the catch site.
-/

namespace HermesBot

/-- Truncation toward zero, the behaviour of Python `int()` on a float. -/
def pytrunc (q : ℚ) : ℤ :=
  if 0 ≤ q then ⌊q⌋ else ⌈q⌉

/-- Embedding of `calculate_backoff_delay` from src/app.py (lines 110–116);
`jitter` stands for the value drawn by `random.uniform(0.8, 1.2)`. -/
def calculate_backoff_delay (blocked_count : ℤ) (jitter : ℚ) : ℤ :=
  if blocked_count ≤ 0 then 0
  else
    let base_minutes : ℤ := 5
    let backoff_minutes : ℤ := min (base_minutes * 2 ^ (blocked_count - 1).toNat) 120
    pytrunc ((backoff_minutes : ℚ) * 60 * jitter)

/-- Per-group configuration: one value of the `bags` dict of config.json. -/
structure GroupData where
  active : Bool
  urls : List String
deriving DecidableEq, Repr

/-- The persisted configuration record (`DEFAULT_CONFIG` keys in src/app.py).
`url_blacklist` maps a URL to its ISO timestamp string; as an association
list, the head entry wins on lookup. -/
structure Config where
  bags : List (String × GroupData)
  emails : List String
  min_interval_minutes : ℤ
  max_interval_minutes : ℤ
  proxy : String
  blocked_count : ℤ
  success_count : ℤ
  last_blocked_time : Option String
  url_blacklist : List (String × String)
  last_run_status : String
deriving DecidableEq, Repr

/-- The default configuration (`DEFAULT_CONFIG` in src/app.py). -/
def DEFAULT_CONFIG : Config where
  bags := []
  emails := []
  min_interval_minutes := 20
  max_interval_minutes := 40
  proxy := ""
  blocked_count := 0
  success_count := 0
  last_blocked_time := none
  url_blacklist := []
  last_run_status := "Waiting to start..."

/-- The keep-condition of `prune_blacklist`: the timestamp string parses and
`now - blocked_time < timedelta(hours=24)`; a `ValueError` removes the entry. -/
def blacklist_keep (parse : String → Option ℤ) (now : ℤ) (e : String × String) : Bool :=
  match parse e.2 with
  | some blocked_time => decide (now - blocked_time < 24 * 3600)
  | none => false

/-- Embedding of `prune_blacklist` from src/app.py (lines 118–141): rebuild the blacklist
keeping exactly the entries whose timestamp parses and is under 24h old.
(The `modified` flag only decides whether to re-save the file; the resulting
configuration is the filtered one either way.) -/
def prune_blacklist (parse : String → Option ℤ) (now : ℤ) (config : Config) : Config :=
  { config with url_blacklist := config.url_blacklist.filter (blacklist_keep parse now) }

/-- The four persisted-state transitions of the worker and dashboard that
touch the run counters (src/app.py):
* `success_cycle` — reconcile on a clean cycle (lines 206–217);
* `blocked_cycle` — reconcile on a blocked cycle (lines 187–204), with the
  culprit URL (if any) and the two timestamp strings taken at that moment;
* `backoff_decay` — the decay after a backoff sleep (lines 164–166);
* `stats_reset` — the `/reset_stats` route (lines 347–357). -/
inductive WorkerOp where
  | success_cycle
  | blocked_cycle (culprit : Option String) (ts : String) (iso_now : String)
  | backoff_decay
  | stats_reset
deriving DecidableEq, Repr

/-- One worker/dashboard transition applied to the persisted configuration. -/
def worker_step (c : Config) : WorkerOp → Config
  | .success_cycle =>
      { c with success_count := c.success_count + 1
               blocked_count := max 0 (c.blocked_count - 1) }
  | .blocked_cycle culprit ts iso_now =>
      { c with blocked_count := c.blocked_count + 1
               last_blocked_time := some ts
               url_blacklist :=
                 match culprit with
                 | some u => (u, iso_now) :: c.url_blacklist
                 | none => c.url_blacklist }
  | .backoff_decay =>
      { c with blocked_count := max 0 (c.blocked_count - 1) }
  | .stats_reset =>
      { c with blocked_count := 0
               success_count := 0
               last_blocked_time := none
               url_blacklist := [] }

/-- A whole sequence of worker operations, applied left to right. -/
def worker_run (c : Config) (ops : List WorkerOp) : Config :=
  ops.foldl worker_step c

/-- A found item, the dict built by `_extract_product_details`. -/
structure Item where
  name : String
  color : String
  link : String
  image : String
  group : String
deriving DecidableEq, Repr

/-- Python `hay.startswith(needle)` on char lists. -/
def l_startswith : List Char → List Char → Bool
  | _, [] => true
  | [], _ :: _ => false
  | c :: cs, d :: ds => c == d && l_startswith cs ds

/-- Python `needle in hay` on char lists. -/
def l_contains (needle : List Char) : List Char → Bool
  | [] => l_startswith [] needle
  | c :: cs => l_startswith (c :: cs) needle || l_contains needle cs

/-- Python `needle in hay` for strings. -/
def str_contains (hay needle : String) : Bool :=
  l_contains needle.toList hay.toList

/-- Python `s.strip()`: drop whitespace from both ends. -/
def py_strip (s : String) : String :=
  let cs := s.toList.dropWhile Char.isWhitespace
  ⟨(cs.reverse.dropWhile Char.isWhitespace).reverse⟩

/-- The fixed indicator list of `BotManager._is_blocked` (src/bot_logic.py
lines 111–118). -/
def blocked_indicators : List String :=
  ["captcha-delivery.com", "DataDome", "Access Denied", "blocked",
   "checking your browser", "Please verify you are a human"]

/-- Embedding of `BotManager._is_blocked` on a page source it managed to read:
lower-case the source and test each indicator (lower-cased) for substring
containment. -/
def is_blocked_src (page_source : String) : Bool :=
  blocked_indicators.any fun indicator =>
    str_contains page_source.toLower indicator.toLower

/-- Embedding of `BotManager._is_blocked` called with its default argument, which reads
`self.driver.page_source`. The read itself can raise; `page_source = none`
models that, and the resulting `none` models the exception propagating out of
`_is_blocked` (the function body has no try/except of its own). -/
def is_blocked_read (page_source : Option String) : Option Bool :=
  page_source.map is_blocked_src

/-- One DOM element as the checks see it: its visibility and enabled state. -/
structure El where
  displayed : Bool
  enabled : Bool
deriving DecidableEq, Repr

/-- The element queries `_check_unavailability` performs, as data:
* `unavailable_msgs` — the `message-info` spans containing "no longer available";
* `add_buttons` — the "Add to cart"/"Add to bag" buttons;
* `sold_out_present` — whether any "sold out"/"out of stock" text node exists;
* `err` — whether one of these queries raises (the body's `except` branch). -/
structure AvailPage where
  unavailable_msgs : List El
  add_buttons : List El
  sold_out_present : Bool
  err : Bool
deriving DecidableEq, Repr

/-- Embedding of `BotManager._check_unavailability` (src/bot_logic.py lines 186–222):
strategy 1 — a displayed "no longer available" message means unavailable;
strategy 2 — a displayed and enabled add button means available;
strategy 3 — any sold-out indicator means unavailable;
default — unavailable; on any exception — unavailable. -/
def check_unavailability (p : AvailPage) : Bool :=
  if p.err then true
  else if !p.unavailable_msgs.isEmpty && p.unavailable_msgs.any (·.displayed) then true
  else if p.add_buttons.any (fun btn => btn.displayed && btn.enabled) then false
  else if p.sold_out_present then true
  else true

/-- The element texts/attributes `_extract_product_details` reads, as data.
Each list holds, in document order, the `.text` (already what `.strip()` sees)
or `src` attribute of the elements the corresponding `find_elements` returns. -/
structure ExtractPage where
  color_elems : List String
  color_fallback_elems : List String
  imgs_high : List String
  imgs_asset : List String
  imgs_product : List String
  h1s : List String
  title : String
deriving DecidableEq, Repr

/-- The color computed by `_extract_product_details` (src/bot_logic.py
lines 227–246): start from "Unknown", take the first panel element's stripped
text, and fall back to the first generic color element when that left the
color empty or "Unknown". -/
def extract_color (p : ExtractPage) : String :=
  let color := "Unknown"
  let color := match p.color_elems with
    | [] => color
    | e :: _ => py_strip e
  if color = "" || color = "Unknown" then
    match p.color_fallback_elems with
    | [] => color
    | e :: _ => py_strip e
  else color

/-- The image URL computed by `_extract_product_details` (src/bot_logic.py
lines 248–276): first high-priority image, else first asset-domain image,
else first product image; protocol-relative URLs get an https: scheme. -/
def extract_image (p : ExtractPage) : String :=
  let image_src := ""
  let image_src := match p.imgs_high with
    | [] => image_src
    | s :: _ => s
  let image_src := if image_src = "" then
      match p.imgs_asset with
      | [] => image_src
      | s :: _ => s
    else image_src
  let image_src := if image_src = "" then
      match p.imgs_product with
      | [] => image_src
      | s :: _ => s
    else image_src
  if image_src ≠ "" && image_src.startsWith "//" then "https:" ++ image_src
  else image_src

/-- The name computed by `_extract_product_details` (src/bot_logic.py
lines 281–292): start from the group name, take the first h1's stripped text,
and fall back to the title's part before "|" when the name is still empty or
equal to the group name. -/
def extract_name (p : ExtractPage) (group_name : String) : String :=
  let name := group_name
  let name := match p.h1s with
    | [] => name
    | h :: _ => py_strip h
  if name = "" || name = group_name then py_strip ((p.title.splitOn "|").headD "")
  else name

/-- Embedding of `BotManager._extract_product_details` (src/bot_logic.py lines 224–309):
extract color, image and name, then apply the quality check
`if name and (color != "Unknown" or image_src):`. -/
def extract_product_details (p : ExtractPage) (url group_name : String) : Option Item :=
  let color := extract_color p
  let image_src := extract_image p
  let name := extract_name p group_name
  if name ≠ "" && (color ≠ "Unknown" || image_src ≠ "") then
    some { name := name, color := color, link := url, image := image_src,
           group := group_name }
  else none

/-- What the driver exposes to `check_single_url` for one URL:
whether `driver.get` succeeds, the page source as `_is_blocked` would read it
(`none` = the read raises), and the element data of the two later phases. -/
structure Driver where
  nav_ok : Bool
  page_source : Option String
  avail : AvailPage
  extract : ExtractPage
deriving Repr

/-- Embedding of `BotManager.check_single_url` (src/bot_logic.py lines 128–184).
Exceptions can escape `driver.get` and `_is_blocked`; the body's `except`
branch retries `_is_blocked` (same driver state), treats `True` as blocked,
and otherwise (including a second failure) returns `(None, False)`. -/
def check_single_url (d : Driver) (url group_name : String) : Option Item × Bool :=
  let handler : Option Item × Bool :=
    match is_blocked_read d.page_source with
    | some true => (none, true)
    | _ => (none, false)
  if !d.nav_ok then handler
  else
    match is_blocked_read d.page_source with
    | none => handler
    | some true => (none, true)
    | some false =>
      match is_blocked_read d.page_source with
      | none => handler
      | some true => (none, true)
      | some false =>
        if check_unavailability d.avail then (none, false)
        else (extract_product_details d.extract url group_name, false)

/-- The inner URL loop of `BotManager.run_check` (src/bot_logic.py lines
342–357) for one group, instrumented with the list of URLs it navigates to.
`check url group_name` stands for `self.check_single_url(url, group_name)`.
Returns (items found, was_blocked, visited URLs); on the first blocked URL it
stops, keeping the items found so far. -/
def run_check_urls (check : String → String → Option Item × Bool)
    (group_name : String) : List String → List Item × Bool × List String
  | [] => ([], false, [])
  | url :: rest =>
    let (result, blocked) := check url group_name
    if blocked then ([], true, [url])
    else
      let (items, b, vs) := run_check_urls check group_name rest
      (match result with
       | some item => item :: items
       | none => items, b, url :: vs)

/-- The group loop of `BotManager.run_check` (src/bot_logic.py lines
333–363) over the already-shuffled active groups, instrumented with the
visited URLs. A block inside a group returns everything found so far. -/
def run_check_groups (check : String → String → Option Item × Bool) :
    List (String × GroupData) → List Item × Bool × List String
  | [] => ([], false, [])
  | (group_name, data) :: rest =>
    let (items, blocked, vs) := run_check_urls check group_name data.urls
    if blocked then (items, true, vs)
    else
      let (items2, b2, vs2) := run_check_groups check rest
      (items ++ items2, b2, vs ++ vs2)

/-- Embedding of `BotManager.run_check` (src/bot_logic.py lines 311–376): filter the
active groups of `bag_config` and run the loops. `random.shuffle` only
permutes the orders, so the embedding takes `bag_config` already in the
shuffled order and the theorems quantify over it. The source returns the
pair `(found_items, was_blocked)` — nothing else. -/
def run_check (check : String → String → Option Item × Bool)
    (bag_config : List (String × GroupData)) : List Item × Bool :=
  let active_groups := bag_config.filter fun g => g.2.active
  let (items, blocked, _) := run_check_groups check active_groups
  (items, blocked)

/-- The URLs a cycle navigates to, in order (ghost instrumentation of
`run_check`). -/
def run_check_visits (check : String → String → Option Item × Bool)
    (bag_config : List (String × GroupData)) : List String :=
  (run_check_groups check (bag_config.filter fun g => g.2.active)).2.2

/-- The candidate URLs of a group list, flattened in visit order, each tagged
with its group name. -/
def candidate_urls (groups : List (String × GroupData)) : List (String × String) :=
  groups.flatMap fun g => g.2.urls.map fun u => (g.1, u)

/-- The live driver object as `cleanup` sees it: the chrome option arguments
(`self.driver.options.arguments`) and whether `self.driver.quit()` raises. -/
structure DriverProc where
  arguments : List String
  quit_raises : Bool
deriving DecidableEq, Repr

/-- The part of a `BotManager` that `cleanup` touches: the `self.driver`
reference, `None` when no browser is live. -/
structure BotState where
  driver : Option DriverProc
deriving DecidableEq, Repr

/-- The filesystem as `cleanup` sees it: which paths exist, and whether
`shutil.rmtree` raises when called. -/
structure Fs where
  existing : List String
  rmtree_raises : Bool
deriving DecidableEq, Repr

/-- The profile-path scan of `cleanup` (src/bot_logic.py lines 382–386):
the first argument starting with "user-data-dir=", with that marker split off
(`arg.split("=", 1)[1]`). -/
def extract_profile_path (arguments : List String) : Option String :=
  match arguments.find? (fun arg => arg.startsWith "user-data-dir=") with
  | some arg => some (arg.drop "user-data-dir=".length)
  | none => none

/-- Quitting the browser, which may raise. -/
def quit_driver (d : DriverProc) : Except String Unit :=
  if d.quit_raises then .error "quit failed" else .ok ()

/-- Removal of a directory tree, which may raise. -/
def rmtree (fs : Fs) (path : String) : Except String Fs :=
  if fs.rmtree_raises then .error "rmtree failed"
  else .ok { fs with existing := fs.existing.filter (· ≠ path) }

/-- Embedding of `BotManager.cleanup` (src/bot_logic.py lines 378–401).
An uncaught exception would be an `.error` result. The source wraps
`driver.quit()` in try/except with a `finally` that nulls `self.driver`, and
wraps `shutil.rmtree` (guarded by `os.path.exists`) in a bare
try/except-pass. -/
def cleanup (s : BotState) (fs : Fs) : Except String (BotState × Fs) :=
  match s.driver with
  | none => .ok (s, fs)
  | some d =>
    let profile_path := extract_profile_path d.arguments
    -- try: quit; except: log only; finally: self.driver = None
    let s' : BotState :=
      match quit_driver d with
      | .ok _ => { s with driver := none }
      | .error _ => { s with driver := none }
    match profile_path with
    | some p =>
      if fs.existing.contains p then
        match rmtree fs p with
        | .ok fs' => .ok (s', fs')
        | .error _ => .ok (s', fs)
      else .ok (s', fs)
    | none => .ok (s', fs)

/-- Claim C3: for every `blocked_count ≤ 0` the backoff delay is 0; for
`blocked_count ≥ 1` and a jitter drawn from `[0.8, 1.2]`, the delay in
seconds lies in `[0.8 × base × 60, 1.2 × base × 60]` with
`base = min(5 × 2^(n−1), 120)` minutes. -/
theorem C3_backoff_delay_range (n : ℤ) (jitter : ℚ)
    (h1 : 4 / 5 ≤ jitter) (h2 : jitter ≤ 6 / 5) :
    (n ≤ 0 → calculate_backoff_delay n jitter = 0) ∧
    (1 ≤ n →
      (4 / 5 : ℚ) * (((min (5 * 2 ^ (n - 1).toNat) 120 : ℤ) : ℚ) * 60) ≤
          (calculate_backoff_delay n jitter : ℚ) ∧
      (calculate_backoff_delay n jitter : ℚ) ≤
          (6 / 5 : ℚ) * (((min (5 * 2 ^ (n - 1).toNat) 120 : ℤ) : ℚ) * 60)) := by
  constructor
  · intro hn
    simp [calculate_backoff_delay, hn]
  · intro hn
    have hns : ¬ n ≤ 0 := by omega
    set base : ℤ := min (5 * 2 ^ (n - 1).toNat) 120 with hbase
    have hb5 : (5 : ℤ) ≤ base := by
      have hpow : (1 : ℤ) ≤ 2 ^ (n - 1).toNat := one_le_pow₀ (by norm_num)
      refine le_min ?_ (by norm_num)
      nlinarith
    have hbq : (5 : ℚ) ≤ (base : ℚ) := by exact_mod_cast hb5
    have hdelay : calculate_backoff_delay n jitter =
        pytrunc ((base : ℚ) * 60 * jitter) := by
      simp only [calculate_backoff_delay, if_neg hns, hbase]
    have hq0 : (0 : ℚ) ≤ (base : ℚ) * 60 * jitter := by nlinarith
    have hfloor : pytrunc ((base : ℚ) * 60 * jitter) =
        ⌊(base : ℚ) * 60 * jitter⌋ := by
      simp [pytrunc, hq0]
    have hlowf : (48 * base : ℤ) ≤ ⌊(base : ℚ) * 60 * jitter⌋ := by
      refine Int.le_floor.mpr ?_
      push_cast
      nlinarith
    have hupf : ((⌊(base : ℚ) * 60 * jitter⌋ : ℚ)) ≤ (base : ℚ) * 60 * jitter :=
      Int.floor_le _
    constructor
    · rw [hdelay, hfloor]
      have h48 : ((48 * base : ℤ) : ℚ) ≤ (⌊(base : ℚ) * 60 * jitter⌋ : ℚ) := by
        exact_mod_cast hlowf
      push_cast at h48
      nlinarith
    · rw [hdelay, hfloor]
      nlinarith

/-- Closed witness for claim C3 at `blocked_count = 3`, `jitter = 1`. -/
theorem C3_backoff_delay_range_witness :
    ((3 : ℤ) ≤ 0 → calculate_backoff_delay 3 1 = 0) ∧
    ((1 : ℤ) ≤ 3 →
      (4 / 5 : ℚ) * (((min (5 * 2 ^ ((3 : ℤ) - 1).toNat) 120 : ℤ) : ℚ) * 60) ≤
          (calculate_backoff_delay 3 1 : ℚ) ∧
      (calculate_backoff_delay 3 1 : ℚ) ≤
          (6 / 5 : ℚ) * (((min (5 * 2 ^ ((3 : ℤ) - 1).toNat) 120 : ℤ) : ℚ) * 60)) :=
  C3_backoff_delay_range 3 1 (by norm_num) (by norm_num)

/-- Claim C4: pruning the blacklist is idempotent at a fixed current time,
and an entry survives the prune exactly when its timestamp parses and is
strictly less than 24 hours old. -/
theorem C4_prune_idempotent_membership (parse : String → Option ℤ) (now : ℤ)
    (config : Config) :
    prune_blacklist parse now (prune_blacklist parse now config) =
      prune_blacklist parse now config ∧
    ∀ e : String × String,
      e ∈ (prune_blacklist parse now config).url_blacklist ↔
        e ∈ config.url_blacklist ∧
          ∃ t, parse e.2 = some t ∧ now - t < 24 * 3600 := by
  constructor
  · simp [prune_blacklist, List.filter_filter]
  · intro e
    simp only [prune_blacklist, List.mem_filter]
    constructor
    · rintro ⟨hmem, hkeep⟩
      refine ⟨hmem, ?_⟩
      unfold blacklist_keep at hkeep
      cases hp : parse e.2 with
      | none => rw [hp] at hkeep; simp at hkeep
      | some t =>
        rw [hp] at hkeep
        exact ⟨t, rfl, by simpa using hkeep⟩
    · rintro ⟨hmem, t, hp, ht⟩
      refine ⟨hmem, ?_⟩
      unfold blacklist_keep
      rw [hp]
      simpa using ht

/-- Claim C9: starting from any configuration with a non-negative
`blocked_count` (the default is 0), no sequence of worker/dashboard
operations drives `blocked_count` negative. -/
theorem C9_blocked_count_nonneg (c : Config) (h : 0 ≤ c.blocked_count)
    (ops : List WorkerOp) : 0 ≤ (worker_run c ops).blocked_count := by
  induction ops generalizing c with
  | nil => simpa [worker_run] using h
  | cons op ops ih =>
    have hstep : 0 ≤ (worker_step c op).blocked_count := by
      cases op <;> (simp [worker_step]; try omega)
    simpa [worker_run, List.foldl_cons] using ih _ hstep

/-- Closed witness for claim C9: the default configuration run through a
block, a success, a backoff decay and a stats reset. -/
theorem C9_blocked_count_nonneg_witness :
    0 ≤ (worker_run DEFAULT_CONFIG
      [WorkerOp.blocked_cycle (some "https://a") "t" "iso",
       WorkerOp.success_cycle, WorkerOp.backoff_decay,
       WorkerOp.stats_reset]).blocked_count :=
  C9_blocked_count_nonneg DEFAULT_CONFIG (by decide) _

/-- Claim C10: `cleanup` never raises, and after it returns the driver
reference is always `None` — also when quitting raised, when no profile path
is recorded, when the profile directory is missing, and when its removal
fails. -/
theorem C10_cleanup_driver_none (s : BotState) (fs : Fs) :
    ∃ fs', cleanup s fs = .ok ({ driver := none }, fs') := by
  obtain ⟨dopt⟩ := s
  cases dopt with
  | none => exact ⟨fs, rfl⟩
  | some d =>
    simp only [cleanup]
    cases hq : quit_driver d <;>
      cases hp : extract_profile_path d.arguments <;>
        simp only [hq, hp]
    case error.none => exact ⟨fs, rfl⟩
    case error.some p =>
      by_cases hex : fs.existing.contains p = true
      · rw [if_pos hex]
        cases hr : rmtree fs p with
        | ok fs' => exact ⟨fs', rfl⟩
        | error msg => exact ⟨fs, rfl⟩
      · exact ⟨fs, by rw [if_neg hex]⟩
    case ok.none => exact ⟨fs, rfl⟩
    case ok.some p =>
      by_cases hex : fs.existing.contains p = true
      · rw [if_pos hex]
        cases hr : rmtree fs p with
        | ok fs' => exact ⟨fs', rfl⟩
        | error msg => exact ⟨fs, rfl⟩
      · exact ⟨fs, by rw [if_neg hex]⟩

/-- Claim C6 counterexample: on a page whose source read fails (navigation
succeeded, `page_source` raises), `_is_blocked` does not return true — the
read raises out of it — and `check_single_url` reports `(None, False)`, a
non-blocked result, contradicting the claim that the detector fails closed. -/
theorem C6_counterexample :
    is_blocked_read none = none ∧
    check_single_url
        ⟨true, none, ⟨[], [], false, false⟩, ⟨[], [], [], [], [], [], ""⟩⟩
        "https://x" "G" = (none, false) :=
  ⟨rfl, rfl⟩

/-- Claim C6 amended: when reading the page source fails, `_is_blocked`
propagates the exception instead of returning true; `check_single_url`
catches it, re-attempts the blocking check (which fails the same way), and
returns `(None, False)` — no item and not blocked, a fail-open outcome. -/
theorem C6_amended (d : Driver) (url group_name : String)
    (h : d.page_source = none) :
    is_blocked_read d.page_source = none ∧
    check_single_url d url group_name = (none, false) := by
  constructor
  · rw [h]; rfl
  · cases hnav : d.nav_ok <;>
      simp [check_single_url, is_blocked_read, h, hnav]

/-- Closed witness for the amended claim C6, on a driver whose navigation
also failed. -/
theorem C6_amended_witness :
    is_blocked_read
        (Driver.page_source
          ⟨false, none, ⟨[], [], false, true⟩, ⟨[], [], [], [], [], [], ""⟩⟩) =
      none ∧
    check_single_url
        ⟨false, none, ⟨[], [], false, true⟩, ⟨[], [], [], [], [], [], ""⟩⟩
        "https://y" "H" = (none, false) :=
  C6_amended
    ⟨false, none, ⟨[], [], false, true⟩, ⟨[], [], [], [], [], [], ""⟩⟩
    "https://y" "H" rfl

/-- Claim C7 counterexample: a page whose color panel yields the empty string
and which has no image at all still produces an item (name "X", color "",
image ""), because the quality check only compares the color against the
placeholder "Unknown" — the claim's "at least one of color and image is
non-empty" is violated. -/
theorem C7_counterexample :
    extract_product_details ⟨[""], [], [], [], [], ["X"], ""⟩ "https://x" "G" =
      some ⟨"X", "", "https://x", "", "G"⟩ := by
  decide

/-- Claim C7 amended: detail extraction returns an item exactly when the
extracted name is non-empty and either the extracted color differs from the
placeholder "Unknown" (even when it is empty) or the extracted image is
non-empty; the item then carries exactly the extracted fields. -/
theorem C7_amended (p : ExtractPage) (url group_name : String) :
    extract_product_details p url group_name =
      if extract_name p group_name ≠ "" ∧
          (extract_color p ≠ "Unknown" ∨ extract_image p ≠ "") then
        some ⟨extract_name p group_name, extract_color p, url, extract_image p,
              group_name⟩
      else none := by
  simp only [extract_product_details, Bool.and_eq_true, Bool.or_eq_true,
    decide_eq_true_eq]

/-- Claim C8 counterexample: a page with a displayed "no longer available"
message and a visible, enabled add-to-cart button is classified unavailable —
the message check runs before the button check — contradicting the claim
that such a control always forces an available classification. -/
theorem C8_counterexample :
    check_unavailability ⟨[⟨true, true⟩], [⟨true, true⟩], false, false⟩ = true ∧
    (AvailPage.add_buttons ⟨[⟨true, true⟩], [⟨true, true⟩], false, false⟩).any
        (fun btn => btn.displayed && btn.enabled) = true :=
  ⟨rfl, rfl⟩

/-- Claim C8 amended: provided the element queries do not raise and no
"no longer available" message is displayed, a visible and enabled add-to-cart
control classifies the page available; and whenever no such control is found
the page is classified unavailable (explicit unavailability text or not). -/
theorem C8_amended (p : AvailPage) :
    ((p.err = false ∧ p.unavailable_msgs.any (·.displayed) = false ∧
        p.add_buttons.any (fun btn => btn.displayed && btn.enabled) = true) →
      check_unavailability p = false) ∧
    (p.add_buttons.any (fun btn => btn.displayed && btn.enabled) = false →
      check_unavailability p = true) := by
  constructor
  · rintro ⟨herr, hmsg, hbtn⟩
    simp [check_unavailability, herr, hmsg, hbtn]
  · intro hbtn
    unfold check_unavailability
    split_ifs <;> simp_all

/-- Closed witness for the amended claim C8: an enabled visible button with
no displayed message yields available; a page with no usable button (only a
hidden message and sold-out text) yields unavailable. -/
theorem C8_amended_witness :
    check_unavailability ⟨[], [⟨true, true⟩], false, false⟩ = false ∧
    check_unavailability ⟨[⟨false, true⟩], [], true, false⟩ = true :=
  ⟨(C8_amended ⟨[], [⟨true, true⟩], false, false⟩).1 ⟨rfl, rfl, rfl⟩,
   (C8_amended ⟨[⟨false, true⟩], [], true, false⟩).2 rfl⟩

/-- Claim C1, evaluated at the failing input: the configuration blacklists
"https://a" 100 seconds ago — well under 24 hours, so the prune keeps the
entry — yet the cycle still navigates to "https://a": `BotManager.run_check`
takes no blacklist parameter at all, so no skip can occur (the caller in
src/app.py passes the blacklist to it and unpacks a third return value,
which the function's signature does not provide). -/
theorem C1_code_eval :
    (prune_blacklist (fun s => if s = "T0" then some 0 else none) 100
        { DEFAULT_CONFIG with
            bags := [("Bags", ⟨true, ["https://a"]⟩)],
            url_blacklist := [("https://a", "T0")] }).url_blacklist =
      [("https://a", "T0")] ∧
    run_check_visits (fun _u _g => (none, false))
      [("Bags", ⟨true, ["https://a"]⟩)] = ["https://a"] := by
  constructor <;> decide

/-- Claim C2, evaluated at the failing input: a cycle blocked on "https://a"
returns the bare pair `([], True)` — the tuple built by
`BotManager.run_check` has no culprit component — while the worker-side
reconciliation (src/app.py lines 187–204) needs a culprit to blacklist it
and would then record it with the current timestamp and increment
`blocked_count` to 1. -/
theorem C2_code_eval :
    run_check (fun _u _g => (none, true)) [("Bags", ⟨true, ["https://a"]⟩)] =
      ([], true) ∧
    (worker_step DEFAULT_CONFIG
        (.blocked_cycle (some "https://a") "t" "iso")).blocked_count = 1 ∧
    (worker_step DEFAULT_CONFIG
        (.blocked_cycle (some "https://a") "t" "iso")).url_blacklist =
      [("https://a", "iso")] := by
  refine ⟨rfl, by decide, rfl⟩

/-- Unfolding of `candidate_urls` on a cons cell. -/
theorem candidate_urls_cons (g : String × GroupData)
    (rest : List (String × GroupData)) :
    candidate_urls (g :: rest) =
      (g.2.urls.map fun u => (g.1, u)) ++ candidate_urls rest := rfl

/-- A URL run in which no URL triggers a block visits every URL of the list
and keeps every extracted item, reporting no block. -/
theorem run_check_urls_clean (check : String → String → Option Item × Bool)
    (group_name : String) (urls : List String)
    (h : ∀ u ∈ urls, (check u group_name).2 = false) :
    run_check_urls check group_name urls =
      (urls.filterMap (fun u => (check u group_name).1), false, urls) := by
  induction urls with
  | nil => rfl
  | cons u rest ih =>
    have hu : (check u group_name).2 = false := h u (List.mem_cons_self u rest)
    have hrest : ∀ v ∈ rest, (check v group_name).2 = false :=
      fun v hv => h v (List.mem_cons_of_mem u hv)
    rcases hc : check u group_name with ⟨result, blocked⟩
    rw [hc] at hu
    have hb : blocked = false := hu
    subst hb
    cases result with
    | none => simp [run_check_urls, hc, ih hrest, List.filterMap_cons]
    | some item => simp [run_check_urls, hc, ih hrest, List.filterMap_cons]

/-- A URL run whose first blocking URL is `u` visits exactly the clean part
and `u`, keeps the items found before `u`, and reports the block. -/
theorem run_check_urls_blocked (check : String → String → Option Item × Bool)
    (group_name : String) (us1 : List String) (u : String) (us2 : List String)
    (hpre : ∀ v ∈ us1, (check v group_name).2 = false)
    (hu : (check u group_name).2 = true) :
    run_check_urls check group_name (us1 ++ u :: us2) =
      (us1.filterMap (fun v => (check v group_name).1), true, us1 ++ [u]) := by
  induction us1 with
  | nil =>
    rcases hc : check u group_name with ⟨result, blocked⟩
    rw [hc] at hu
    have hb : blocked = true := hu
    subst hb
    simp [run_check_urls, hc]
  | cons v vs ih =>
    have hv : (check v group_name).2 = false := hpre v (List.mem_cons_self v vs)
    have hvs : ∀ w ∈ vs, (check w group_name).2 = false :=
      fun w hw => hpre w (List.mem_cons_of_mem v hw)
    rcases hc : check v group_name with ⟨result, blocked⟩
    rw [hc] at hv
    have hb : blocked = false := hv
    subst hb
    cases result with
    | none => simp [run_check_urls, hc, ih hvs, List.filterMap_cons]
    | some item => simp [run_check_urls, hc, ih hvs, List.filterMap_cons]

/-- Items delivered by a URL list tagged into (group, url) pairs. -/
theorem filterMap_map_pair (check : String → String → Option Item × Bool)
    (gname : String) (urls : List String) :
    (urls.map fun u => (gname, u)).filterMap
        (fun p : String × String => (check p.2 p.1).1) =
      urls.filterMap (fun u => (check u gname).1) := by
  induction urls with
  | nil => rfl
  | cons u rest ih =>
    cases h : (check u gname).1 <;> simp [List.filterMap_cons, h, ih]

/-- Projecting the URLs back out of a tagged (group, url) list. -/
theorem map_snd_pair (gname : String) (urls : List String) :
    (urls.map fun u => (gname, u)).map Prod.snd = urls := by
  induction urls with
  | nil => rfl
  | cons u rest ih => simp [ih]

/-- A group run in which no candidate URL triggers a block visits every
candidate URL in order and keeps every extracted item. -/
theorem run_check_groups_clean (check : String → String → Option Item × Bool)
    (gs : List (String × GroupData))
    (h : ∀ p ∈ candidate_urls gs, (check p.2 p.1).2 = false) :
    run_check_groups check gs =
      ((candidate_urls gs).filterMap (fun p => (check p.2 p.1).1), false,
        (candidate_urls gs).map Prod.snd) := by
  induction gs with
  | nil => rfl
  | cons g rest ih =>
    obtain ⟨gname, data⟩ := g
    have hfirst : ∀ u ∈ data.urls, (check u gname).2 = false := fun u hu =>
      h (gname, u) (by
        rw [candidate_urls_cons]
        exact List.mem_append_left _ (List.mem_map_of_mem _ hu))
    have hrest : ∀ p ∈ candidate_urls rest, (check p.2 p.1).2 = false :=
      fun p hp => h p (by rw [candidate_urls_cons]; exact List.mem_append_right _ hp)
    simp [run_check_groups, run_check_urls_clean check gname data.urls hfirst,
      ih hrest, candidate_urls_cons, List.filterMap_append, List.map_append,
      filterMap_map_pair, map_snd_pair]
    rfl

/-- A group run whose flattened candidate list splits as
`pre ++ c :: post`, with every URL of `pre` clean and `c` blocking, returns
the items found on `pre`, reports the block, and visits exactly `pre`
followed by `c` — nothing after `c`. -/
theorem run_check_groups_blocked (check : String → String → Option Item × Bool)
    (gs : List (String × GroupData)) (pre : List (String × String))
    (c : String × String) (post : List (String × String))
    (hsplit : candidate_urls gs = pre ++ c :: post)
    (hpre : ∀ p ∈ pre, (check p.2 p.1).2 = false)
    (hc : (check c.2 c.1).2 = true) :
    run_check_groups check gs =
      (pre.filterMap (fun p => (check p.2 p.1).1), true,
        pre.map Prod.snd ++ [c.2]) := by
  induction gs generalizing pre c post with
  | nil => simp [candidate_urls] at hsplit
  | cons g rest ih =>
    obtain ⟨gname, data⟩ := g
    rw [candidate_urls_cons] at hsplit
    rcases List.append_eq_append_iff.mp hsplit with ⟨a2, hpre_eq, hrest_eq⟩ |
      ⟨c2, hM_eq, hcpost_eq⟩
    · -- the blocking URL lies in a later group; a2 is the clean tail of pre
      subst hpre_eq
      have hfirst : ∀ u ∈ data.urls, (check u gname).2 = false := fun u hu =>
        hpre (gname, u)
          (List.mem_append_left _ (List.mem_map_of_mem _ hu))
      have ha2 : ∀ p ∈ a2, (check p.2 p.1).2 = false :=
        fun p hp => hpre p (List.mem_append_right _ hp)
      have hrec := ih a2 c post hrest_eq ha2 hc
      simp [run_check_groups, run_check_urls_clean check gname data.urls hfirst,
        hrec, List.filterMap_append, List.map_append, filterMap_map_pair,
        map_snd_pair]
      rfl
    · -- the blocking URL lies in this group or at its boundary
      cases c2 with
      | nil =>
        -- boundary: the whole first group is clean and `c` opens the rest
        rw [List.append_nil] at hM_eq
        rw [List.nil_append] at hcpost_eq
        subst hM_eq
        have hfirst : ∀ u ∈ data.urls, (check u gname).2 = false := fun u hu =>
          hpre (gname, u) (List.mem_map_of_mem _ hu)
        have hrec := ih [] c post (by simpa using hcpost_eq.symm) (by simp) hc
        simp [run_check_groups, run_check_urls_clean check gname data.urls hfirst,
          hrec, filterMap_map_pair, map_snd_pair]
        rfl
      | cons q c3 =>
        -- `c = q` sits inside this group's URL list
        obtain ⟨hq, hpost⟩ : c = q ∧ post = c3 ++ candidate_urls rest := by
          rw [List.cons_append, List.cons_eq_cons] at hcpost_eq
          exact ⟨hcpost_eq.1, hcpost_eq.2⟩
        subst hq
        rcases List.map_eq_append_iff.mp hM_eq with ⟨l1, l2, hurls, hl1, hl2⟩
        rcases List.map_eq_cons_iff.mp hl2 with ⟨a, l3, hl2_eq, ha, _hl3⟩
        have hc1 : c.1 = gname := by rw [← ha]
        have hc2 : c.2 = a := by rw [← ha]
        have hl1pre : ∀ v ∈ l1, (check v gname).2 = false := fun v hv => by
          have hmem : (gname, v) ∈ pre := by
            rw [← hl1]
            exact List.mem_map_of_mem _ hv
          exact hpre _ hmem
        have hca : (check a gname).2 = true := by
          rw [← hc1, ← hc2]; exact hc
        have hurls2 : data.urls = l1 ++ a :: l3 := by rw [hurls, hl2_eq]
        rw [← hl1, hc2]
        simp [run_check_groups, hurls2,
          run_check_urls_blocked check gname l1 a l3 hl1pre hca,
          filterMap_map_pair, map_snd_pair]
        rfl

/-- Claim C5: in any cycle whose (shuffled) active candidate URLs are
`pre ++ c :: post` with every URL of `pre` clean and `c` the first URL that
triggers a block, `run_check` returns exactly the items found on the URLs
before `c` together with a blocked status, and the cycle navigates exactly
to the URLs of `pre` and then `c` — the URLs after `c` are never visited. -/
theorem C5_cycle_abort (check : String → String → Option Item × Bool)
    (bag_config : List (String × GroupData)) (pre : List (String × String))
    (c : String × String) (post : List (String × String))
    (hsplit : candidate_urls (bag_config.filter fun g => g.2.active) =
      pre ++ c :: post)
    (hpre : ∀ p ∈ pre, (check p.2 p.1).2 = false)
    (hc : (check c.2 c.1).2 = true) :
    run_check check bag_config =
      (pre.filterMap (fun p => (check p.2 p.1).1), true) ∧
    run_check_visits check bag_config = pre.map Prod.snd ++ [c.2] := by
  have hmain := run_check_groups_blocked check
    (bag_config.filter fun g => g.2.active) pre c post hsplit hpre hc
  constructor
  · simp [run_check, hmain]
  · simp [run_check_visits, hmain]

/-- Closed witness for claim C5, the spec's scenario: five candidate URLs in
two active groups, the third triggers a block; the second yielded an item.
The cycle returns that item with a blocked status and never visits the
fourth or fifth URL. -/
theorem C5_cycle_abort_witness :
    run_check
        (fun u _g => (if u = "B" then some ⟨"X", "Red", "B", "", "G1"⟩ else none,
          decide (u = "C")))
        [("G1", ⟨true, ["A", "B"]⟩), ("G2", ⟨true, ["C", "D", "E"]⟩)] =
      ([⟨"X", "Red", "B", "", "G1"⟩], true) ∧
    run_check_visits
        (fun u _g => (if u = "B" then some ⟨"X", "Red", "B", "", "G1"⟩ else none,
          decide (u = "C")))
        [("G1", ⟨true, ["A", "B"]⟩), ("G2", ⟨true, ["C", "D", "E"]⟩)] =
      ["A", "B", "C"] := by
  have h := C5_cycle_abort
    (fun u _g => (if u = "B" then some ⟨"X", "Red", "B", "", "G1"⟩ else none,
      decide (u = "C")))
    [("G1", ⟨true, ["A", "B"]⟩), ("G2", ⟨true, ["C", "D", "E"]⟩)]
    [("G1", "A"), ("G1", "B")] ("G2", "C") [("G2", "D"), ("G2", "E")]
    (by decide) (by decide) (by decide)
  refine ⟨?_, ?_⟩
  · rw [h.1]; decide
  · rw [h.2]; decide


end HermesBot
